import Mathlib

/-!
Verification of the declarative HTTP operation layer (parameter binding,
validator chain, content resolution, response resolution and bad-request
recovery) described in the repository's design document, against the
behaviour pinned down by the repository's integration tests.

The runtime library itself is not part of the checked-out sources (only its
tests are), so every operational definition below is modelled from the
design document and cross-checked against the concrete expectations of the
tests in `poem-openapi/tests`.
-/

namespace Poem

/-! ### Character and string utilities -/

/-- Modelled from the spec: ASCII lower-casing of a single code point, used
for the case-insensitive header matching described in the data-model section
(the header-matching runtime code is not in the checked-out sources). -/
def lowerCode (n : Nat) : Nat := if 65 ≤ n ∧ n ≤ 90 then n + 32 else n

/-- Modelled from the spec: the case-insensitive matching key of a header
name. Two header names match at runtime exactly when their keys agree. -/
def matchKey (s : String) : List Nat := s.data.map (fun c => lowerCode c.toNat)

/-- Modelled from the spec: runtime header-name comparison, which is
case-insensitive. -/
def headersMatch (a b : String) : Bool := matchKey a == matchKey b

/-- Modelled from the spec: upper-case a single ASCII character. -/
def upperFirstChar (c : Char) : Char :=
  if 97 ≤ c.toNat ∧ c.toNat ≤ 122 then Char.ofNat (c.toNat - 32) else c

/-- Modelled from the spec: the documentation-display normalization of a
declared header name. The first character is upper-cased; the remaining
characters keep the case as declared. -/
def normalizeHeaderName (s : String) : String :=
  match s.data with
  | [] => s
  | c :: cs => String.mk (upperFirstChar c :: cs)

/-- Modelled from the spec: the media type of a content-type header value.
Parameters such as `charset` (everything after a semicolon) are ignored for
matching. -/
def mediaType (ct : String) : String :=
  String.mk ((ct.data.takeWhile (fun c => c ≠ ';')).filter (fun c => c ≠ ' '))

/-! ### Values and primitive coercion -/

/-- A JSON-like runtime value produced by parameter coercion. -/
inductive Value where
  | intV (n : Int)
  | strV (s : String)
  | listV (vs : List Value)

/-- Primitive parameter types used by the operations under test. -/
inductive PrimType where
  | uint16
  | int32
  | stringT
deriving DecidableEq, Repr

/-- Modelled from the spec: the human-readable type tag used in binding
error messages, e.g. `integer(uint16)`. -/
def PrimType.typeName : PrimType → String
  | .uint16 => "integer(uint16)"
  | .int32 => "integer(int32)"
  | .stringT => "string(string)"

/-- Accumulating decimal parser over a character list; fails on any
non-digit character. -/
def digitsToNat : List Char → Nat → Option Nat
  | [], acc => some acc
  | c :: rest, acc =>
    if c.isDigit then digitsToNat rest (acc * 10 + (c.toNat - 48)) else none

/-- Parse a non-empty all-digit string as a natural number. -/
def parseNatStr (s : String) : Option Nat :=
  match s.data with
  | [] => none
  | cs => digitsToNat cs 0

/-- Parse an optionally-negated decimal integer. -/
def parseIntStr (s : String) : Option Int :=
  match s.data with
  | '-' :: rest =>
    match rest with
    | [] => none
    | _ => (digitsToNat rest 0).map (fun n => -(n : Int))
  | _ => (parseNatStr s).map (fun n => (n : Int))

/-- Modelled from the spec: coercion of a raw textual parameter value into
the target primitive shape, with the fixed numeric ranges of the wire
types. -/
def parsePrim : PrimType → String → Option Value
  | .uint16, s => (parseNatStr s).bind (fun n => if n < 65536 then some (.intV n) else none)
  | .int32, s =>
    (parseIntStr s).bind
      (fun n => if -2147483648 ≤ n ∧ n < 2147483648 then some (.intV n) else none)
  | .stringT, s => some (.strV s)

/-! ### Validator chain -/

/-- Modelled from the spec: the validator rule families (numeric bounds and
length bounds) applied after successful coercion. -/
inductive Validator where
  | maximum (value : Int) (exclusive : Bool)
  | minimum (value : Int) (exclusive : Bool)
  | maxLength (len : Nat)
  | minLength (len : Nat)
deriving DecidableEq, Repr

/-- Render a boolean the way validator descriptions spell it. -/
def boolWord (b : Bool) : String := if b then "true" else "false"

/-- Modelled from the spec: the human-readable rule description, used
verbatim in error messages in the format `<rule>(<args>)`. -/
def Validator.ruleText : Validator → String
  | .maximum v ex => "maximum(" ++ toString v ++ ", exclusive: " ++ boolWord ex ++ ")"
  | .minimum v ex => "minimum(" ++ toString v ++ ", exclusive: " ++ boolWord ex ++ ")"
  | .maxLength n => "maxLength(" ++ toString n ++ ")"
  | .minLength n => "minLength(" ++ toString n ++ ")"

/-- Modelled from the spec: each rule is a pure predicate over the coerced
value. -/
def Validator.check : Validator → Value → Bool
  | .maximum m ex, .intV n => if ex then decide (n < m) else decide (n ≤ m)
  | .minimum m ex, .intV n => if ex then decide (m < n) else decide (m ≤ n)
  | .maxLength l, .strV s => decide (s.length ≤ l)
  | .minLength l, .strV s => decide (l ≤ s.length)
  | _, _ => true

/-! ### Requests, parameter descriptors and the binder -/

/-- A parameter's extraction source. -/
inductive ParamLocation where
  | query
  | header
  | path
  | cookie
deriving DecidableEq, Repr

/-- The transport-level request as delivered by the external router: named
query entries, header lines, resolved path captures and cookies, each in
appearance order. -/
structure RawRequest where
  method : String
  path : String
  queryPairs : List (String × String)
  headerPairs : List (String × String)
  pathParams : List (String × String)
  cookiePairs : List (String × String)
  contentType : Option String
  body : String

/-- A parameter's declared shape: a single primitive or a sequence of
primitives. -/
inductive ParamShape where
  | prim (t : PrimType)
  | seq (t : PrimType)
deriving DecidableEq, Repr

/-- The type tag a binding error reports for a shape. -/
def ParamShape.shapeName : ParamShape → String
  | .prim t => t.typeName
  | .seq t => "array(" ++ t.typeName ++ ")"

/-- Modelled from the spec: the Parameter Descriptor of the data model,
built once from a declaration and consulted on every request. `name` is the
final wire name (after any rename). -/
structure ParamDescriptor where
  name : String
  location : ParamLocation
  shape : ParamShape
  default : Option Value
  validators : List Validator
  deprecated : Bool
  description : Option String

/-- Modelled from the spec: locate the raw values of a name in a given
location. Query, path and cookie entries use exact name comparison; header
lines match case-insensitively. All same-named entries are collected in
appearance order. -/
def rawValuesAt (req : RawRequest) (loc : ParamLocation) (name : String) : List String :=
  match loc with
  | .query => (req.queryPairs.filter (fun kv => kv.1 == name)).map Prod.snd
  | .header => (req.headerPairs.filter (fun kv => headersMatch kv.1 name)).map Prod.snd
  | .path => (req.pathParams.filter (fun kv => kv.1 == name)).map Prod.snd
  | .cookie => (req.cookiePairs.filter (fun kv => kv.1 == name)).map Prod.snd

/-- The raw values a descriptor extracts from a request. -/
def rawValues (req : RawRequest) (p : ParamDescriptor) : List String :=
  rawValuesAt req p.location p.name

/-- Modelled from the spec: the request-time failure taxonomy of the error
handling section. -/
inductive BindFailure where
  | missingParameter (name : String) (typeName : String)
  | parseFailure (name : String) (typeName : String) (raw : String)
  | validationError (name : String) (ruleDesc : String)
  | unsupportedMediaType
deriving DecidableEq, Repr

/-- Modelled from the spec: the deterministic human-readable message each
failure carries (parameter name plus coercion or rule description). -/
def BindFailure.message : BindFailure → String
  | .missingParameter n t =>
    "failed to parse parameter `" ++ n ++ "`: Type \"" ++ t ++ "\" expects an input value."
  | .parseFailure n t raw =>
    "failed to parse parameter `" ++ n ++ "`: failed to parse \"" ++ t ++ "\" from \"" ++
      raw ++ "\""
  | .validationError n d =>
    "failed to parse parameter `" ++ n ++ "`: verification failed. " ++ d
  | .unsupportedMediaType => "unsupported media type"

/-- Modelled from the spec: the transport status each failure maps to when
no recovery function is declared. -/
def BindFailure.status : BindFailure → Nat
  | .unsupportedMediaType => 415
  | _ => 400

/-- Modelled from the spec: run the validator chain in declaration order,
stopping at the first failing rule. -/
def runValidators (p : ParamDescriptor) (v : Value) : Except BindFailure Value :=
  match p.validators.find? (fun r => !(r.check v)) with
  | some r => .error (.validationError p.name r.ruleText)
  | none => .ok v

/-- Modelled from the spec: bind the already-extracted raw values of one
parameter. An absent parameter takes the declared default or fails as
missing; present values are coerced (sequences element-wise, in appearance
order) and then validated. -/
def bindRaw (p : ParamDescriptor) (raw : List String) : Except BindFailure Value :=
  match raw with
  | [] =>
    match p.default with
    | some d => .ok d
    | none => .error (.missingParameter p.name p.shape.shapeName)
  | s :: rest =>
    match p.shape with
    | .prim t =>
      match parsePrim t s with
      | some v => runValidators p v
      | none => .error (.parseFailure p.name t.typeName s)
    | .seq t =>
      match (s :: rest).mapM (parsePrim t) with
      | some vs => runValidators p (.listV vs)
      | none => .error (.parseFailure p.name p.shape.shapeName s)

/-- Modelled from the spec: the Parameter Binder, composing extraction with
binding of the raw values. -/
def bindParam (req : RawRequest) (p : ParamDescriptor) : Except BindFailure Value :=
  bindRaw p (rawValues req p)

/-- Bind every declared parameter of an operation, failing on the first
binding failure. -/
def bindAll (params : List ParamDescriptor) (req : RawRequest) :
    Except BindFailure (List Value) :=
  params.mapM (bindParam req)

/-! ### Document projection of parameters -/

/-- The parameter entry recorded in the interface-description document. -/
structure MetaParam where
  name : String
  inType : ParamLocation
  required : Bool
  deprecated : Bool
  description : Option String
  schemaDefault : Option Value

/-- Modelled from the spec: the document projection of one parameter
descriptor. A declared default makes the parameter non-required and is
recorded in its schema. -/
def metaParam (p : ParamDescriptor) : MetaParam :=
  { name := p.name
    inType := p.location
    required := p.default.isNone
    deprecated := p.deprecated
    description := p.description
    schemaDefault := p.default }

/-- Document projection of a whole parameter list, in declaration order. -/
def metaParams (ps : List ParamDescriptor) : List MetaParam := ps.map metaParam

/-- An in-code parameter declaration, before name resolution: the code-side
identifier plus an optional override name. -/
structure ParamDecl where
  ident : String
  rename : Option String
  location : ParamLocation
  shape : ParamShape
  default : Option Value
  validators : List Validator
  deprecated : Bool
  description : Option String

/-- Modelled from the spec: the final wire name of a declaration. A declared
override name replaces the binder's default name. -/
def finalName (d : ParamDecl) : String := d.rename.getD d.ident

/-- Modelled from the spec: build the immutable descriptor from a
declaration; binding and documentation both use the identical final name. -/
def mkDescriptor (d : ParamDecl) : ParamDescriptor :=
  { name := finalName d
    location := d.location
    shape := d.shape
    default := d.default
    validators := d.validators
    deprecated := d.deprecated
    description := d.description }

/-! ### Content resolver -/

/-- Modelled from the spec: the Content Resolver. The request's media type
is compared exactly against the declared ordered alternatives; the first
match selects the constructed variant (returned as its index), and no match
is an `UnsupportedMediaType` binding failure, never a silent default. -/
def bindBody (alts : List String) (ct : Option String) : Except BindFailure Nat :=
  match ct with
  | none => .error .unsupportedMediaType
  | some c =>
    match alts.findIdx? (fun a => a == mediaType c) with
    | some i => .ok i
    | none => .error .unsupportedMediaType

/-! ### Operations, dispatch and recovery -/

/-- The per-operation declaration the registry aggregates: path, method,
parameter descriptors, and the ordered content alternatives of the request
body (empty when the operation takes no body). -/
structure OperationDecl where
  path : String
  method : String
  params : List ParamDescriptor
  requestContent : List String

/-- The transport-level response. -/
structure HttpResponse where
  status : Nat
  contentType : Option String
  headers : List (String × String)
  body : String

/-- Modelled from the spec: the default plain-text rendering of a binding
failure when no recovery function is declared. -/
def plainTextFailure (f : BindFailure) : HttpResponse :=
  { status := f.status
    contentType := some "text/plain"
    headers := []
    body := f.message }

/-- Modelled from the spec: dispatch one already-routed request. Parameter
binding and request-body binding run before the operation body; any failure
is handed to the declared recovery function, or rendered as the default
plain-text response, and the handler is never consulted. On success the
handler receives the bound values and the index of the selected content
alternative. -/
def dispatch (op : OperationDecl) (handler : List Value → Nat → HttpResponse)
    (recovery : Option (BindFailure → HttpResponse)) (req : RawRequest) : HttpResponse :=
  match bindAll op.params req with
  | .error f =>
    match recovery with
    | some r => r f
    | none => plainTextFailure f
  | .ok vs =>
    match op.requestContent with
    | [] => handler vs 0
    | _ =>
      match bindBody op.requestContent req.contentType with
      | .ok i => handler vs i
      | .error f =>
        match recovery with
        | some r => r f
        | none => plainTextFailure f

/-! ### Response variants -/

/-- How a response case determines its status: a fixed declared code, or a
runtime status-code value carried as the case's first field. -/
inductive CaseStatus where
  | fixed (code : Nat)
  | runtime
deriving DecidableEq, Repr

/-- An inline per-field header declaration of a response case. -/
structure FieldHeaderDecl where
  name : String
  optional : Bool
  deprecated : Bool
  description : Option String
deriving DecidableEq, Repr

/-- An extra header declared at the API level or the case level. -/
structure ExtraHeaderDecl where
  name : String
  deprecated : Bool
  description : Option String
deriving DecidableEq, Repr

/-- One response-variant case declaration. -/
structure RespCaseDecl where
  description : String
  caseStatus : CaseStatus
  payloadContentType : Option String
  fieldHeaders : List FieldHeaderDecl
  extraHeaders : List ExtraHeaderDecl
deriving DecidableEq, Repr

/-- A header entry of the document's response metadata. -/
structure MetaHeader where
  name : String
  required : Bool
  deprecated : Bool
  description : Option String
deriving DecidableEq, Repr

/-- One entry of the document's operation responses. -/
structure MetaResponse where
  description : String
  status : Option Nat
  contentTypes : List String
  headers : List MetaHeader
deriving DecidableEq, Repr

/-- Modelled from the spec: document projection of an inline per-field
header declaration; its name is normalized for display and an optional
field is marked non-required. -/
def metaFieldHeader (f : FieldHeaderDecl) : MetaHeader :=
  { name := normalizeHeaderName f.name
    required := !f.optional
    deprecated := f.deprecated
    description := f.description }

/-- Modelled from the spec: document projection of an extra header
declaration, with the same display normalization. -/
def metaExtraHeader (e : ExtraHeaderDecl) : MetaHeader :=
  { name := normalizeHeaderName e.name
    required := false
    deprecated := e.deprecated
    description := e.description }

/-- Modelled from the spec: the document entry of one response case. A
runtime-status case records its status as absent; the header list is the
plain concatenation of inline per-field headers followed by the declared
extra headers, with no deduplication. -/
def metaOfCase (c : RespCaseDecl) : MetaResponse :=
  { description := c.description
    status := match c.caseStatus with | .fixed n => some n | .runtime => none
    contentTypes := c.payloadContentType.toList
    headers := c.fieldHeaders.map metaFieldHeader ++ c.extraHeaders.map metaExtraHeader }

/-- A runtime response value: its case, the runtime status used when the
case carries one, the serialized payload, and the values of the case's
header fields (in declaration order, `none` for an absent optional). -/
structure RespValue where
  caseDecl : RespCaseDecl
  runtimeStatus : Nat
  payload : String
  headerValues : List (Option String)

/-- Modelled from the spec: emit the headers of a response case; a header
is emitted exactly when its field value is present. -/
def emitHeaders (pairs : List (FieldHeaderDecl × Option String)) : List (String × String) :=
  pairs.filterMap (fun fv => fv.2.map (fun s => (fv.1.name, s)))

/-- Modelled from the spec: convert a typed response value into the
transport response. A fixed declared status wins; otherwise the runtime
status-code value carried by the case determines the emitted status. -/
def intoResponse (v : RespValue) : HttpResponse :=
  { status := match v.caseDecl.caseStatus with | .fixed n => n | .runtime => v.runtimeStatus
    contentType := v.caseDecl.payloadContentType
    headers := emitHeaders (v.caseDecl.fieldHeaders.zip v.headerValues)
    body := v.payload }

/-- First response header whose name matches case-insensitively. -/
def findHeader (hs : List (String × String)) (name : String) : Option String :=
  (hs.find? (fun kv => headersMatch kv.1 name)).map Prod.snd

/-! ### Concrete fixtures mirroring the repository's tests -/

/-- A `GET /` request carrying only the given query entries. -/
def queryRequest (pairs : List (String × String)) : RawRequest :=
  { method := "GET"
    path := "/"
    queryPairs := pairs
    headerPairs := []
    pathParams := []
    cookiePairs := []
    contentType := none
    body := "" }

/-- The required query parameter `code : u16` of the `bad_request_handler`
test. -/
def codeParam : ParamDescriptor :=
  { name := "code"
    location := .query
    shape := .prim .uint16
    default := none
    validators := []
    deprecated := false
    description := none }

/-- The `code : u16` parameter with a maximum-value validator of 100, from
the `bad_request_handler_for_validator` test. -/
def codeMaxParam : ParamDescriptor :=
  { codeParam with validators := [.maximum 100 false] }

/-- The `GET /` operation taking the required `code` parameter. -/
def opCode : OperationDecl :=
  { path := "/", method := "get", params := [codeParam], requestContent := [] }

/-- The `GET /` operation taking the validated `code` parameter. -/
def opCodeMax : OperationDecl :=
  { path := "/", method := "get", params := [codeMaxParam], requestContent := [] }

/-- A `GET /` request with no query parameters at all. -/
def reqNoCode : RawRequest := queryRequest []

/-- A `GET /` request supplying `code=200`. -/
def reqCode200 : RawRequest := queryRequest [("code", "200")]

/-- The sequence-of-integer query parameter `v` of the
`query_multiple_values` test. -/
def vSeqParam : ParamDescriptor :=
  { name := "v"
    location := .query
    shape := .seq .int32
    default := none
    validators := []
    deprecated := false
    description := none }

/-- The `POST /` operation of the `payload_request` test, declaring the
single content alternative `application/json`. -/
def opPayload : OperationDecl :=
  { path := "/", method := "post", params := [], requestContent := ["application/json"] }

/-- The `payload_request` test's mismatching request: a `text/plain` body. -/
def reqText100 : RawRequest :=
  { queryRequest [] with method := "post", contentType := some "text/plain", body := "100" }

/-- The `query_default` test's parameter: default producer yielding 999. -/
def defaultParam999 : ParamDescriptor :=
  { name := "v"
    location := .query
    shape := .prim .int32
    default := some (.intV 999)
    validators := []
    deprecated := false
    description := none }

/-- The `query_rename` test's declaration: identifier `foo_bar` renamed to
`fooBar`. -/
def fooBarDecl : ParamDecl :=
  { ident := "foo_bar"
    rename := some "fooBar"
    location := .query
    shape := .prim .int32
    default := none
    validators := []
    deprecated := false
    description := none }

/-- The runtime-status `Default` case of the response tests. -/
def defaultCase : RespCaseDecl :=
  { description := "Default"
    caseStatus := .runtime
    payloadContentType := some "text/plain"
    fieldHeaders := []
    extraHeaders := [] }

/-- A concrete value of the `Default` case carrying status 502, as in the
`into_response` test. -/
def defaultRespVal : RespValue :=
  { caseDecl := defaultCase
    runtimeStatus := 502
    payload := "abcdef"
    headerValues := [] }

/-- The `extra_headers_on_response` test's case: one inline header `A` plus
extra headers `A1` and `a2`. -/
def extraCase : RespCaseDecl :=
  { description := ""
    caseStatus := .fixed 200
    payloadContentType := some "application/json"
    fieldHeaders := [{ name := "A", optional := false, deprecated := false, description := none }]
    extraHeaders :=
      [{ name := "A1", deprecated := false, description := none },
       { name := "a2", deprecated := true, description := some "abc" }] }

/-- The required inline header `MY-HEADER1` of the `headers` test. -/
def h1Decl : FieldHeaderDecl :=
  { name := "MY-HEADER1", optional := false, deprecated := false, description := some "header1" }

/-- The optional inline header `MY-HEADER2` of the `headers` test. -/
def h2Decl : FieldHeaderDecl :=
  { name := "MY-HEADER2", optional := true, deprecated := false, description := none }

/-- A trivial operation body returning an empty `200`. -/
def handlerOk : List Value → Nat → HttpResponse :=
  fun _ _ => { status := 200, contentType := none, headers := [], body := "" }

/-- A concrete value of `extraCase`, whose declared status is the fixed 200. -/
def extraRespVal : RespValue :=
  { caseDecl := extraCase
    runtimeStatus := 0
    payload := "100"
    headerValues := [some "abc"] }

/-- The `headers` test's `B` variant with both header fields present. -/
def pairsBSome : List (FieldHeaderDecl × Option String) :=
  [(h1Decl, some "88"), (h2Decl, some "abc")]

/-- The `headers` test's `B` variant with the optional header absent. -/
def pairsBNone : List (FieldHeaderDecl × Option String) :=
  [(h1Decl, some "88"), (h2Decl, none)]

/-! ### Helper lemmas -/

theorem charToNat_ofNat_small (n : Nat) (h : n < 55296) : (Char.ofNat n).toNat = n := by
  have hv : n.isValidChar := Or.inl h
  rw [Char.ofNat, dif_pos hv]
  rfl

theorem lowerCode_upperFirstChar (c : Char) :
    lowerCode (upperFirstChar c).toNat = lowerCode c.toNat := by
  unfold upperFirstChar
  by_cases hc : 97 ≤ c.toNat ∧ c.toNat ≤ 122
  · rw [if_pos hc]
    rw [charToNat_ofNat_small (c.toNat - 32) (by omega)]
    unfold lowerCode
    rw [if_pos (by omega), if_neg (by omega)]
    omega
  · rw [if_neg hc]

theorem matchKey_normalize (s : String) :
    matchKey (normalizeHeaderName s) = matchKey s := by
  obtain ⟨data⟩ := s
  cases data with
  | nil => rfl
  | cons c cs =>
    show matchKey (String.mk (upperFirstChar c :: cs)) = matchKey (String.mk (c :: cs))
    unfold matchKey
    simp [lowerCode_upperFirstChar]

theorem headersMatch_normalize (s t : String) :
    headersMatch (normalizeHeaderName s) t = headersMatch s t := by
  unfold headersMatch
  rw [matchKey_normalize]

theorem findHeader_emit_of_not_mem (pairs : List (FieldHeaderDecl × Option String))
    (name : String)
    (h : matchKey name ∉ pairs.map (fun fv => matchKey fv.1.name)) :
    findHeader (emitHeaders pairs) name = none := by
  induction pairs with
  | nil => rfl
  | cons fv rest ih =>
    simp only [List.map_cons, List.mem_cons, not_or] at h
    obtain ⟨hne, hrest⟩ := h
    obtain ⟨f, v⟩ := fv
    cases v with
    | none =>
      simpa [emitHeaders, List.filterMap_cons] using ih hrest
    | some s =>
      have hfm : headersMatch f.name name = false := by
        unfold headersMatch
        simp only [beq_eq_false_iff_ne, ne_eq]
        intro hcontra
        exact hne hcontra.symm
      have hrec := ih hrest
      simp only [emitHeaders, List.filterMap_cons, Option.map_some] at *
      simpa [findHeader, List.find?_cons, hfm] using hrec

/-! ### Claim theorems -/

/-- C1: a required query parameter `code : u16` absent from `GET /` yields a
400 response whose body is exactly
`failed to parse parameter \x60code\x60: Type "integer(uint16)" expects an
input value.` when no recovery function is declared; with a recovery
function, that same failure value is handed to it (before any operation
body, which is never consulted) and its returned response is emitted. -/
theorem c1_missing_code_recovery (handler : List Value → Nat → HttpResponse)
    (recovery : BindFailure → HttpResponse) :
    dispatch opCode handler none reqNoCode =
      { status := 400
        contentType := some "text/plain"
        headers := []
        body := "failed to parse parameter `code`: Type \"integer(uint16)\" expects an input value." } ∧
    dispatch opCode handler (some recovery) reqNoCode =
      recovery (.missingParameter "code" "integer(uint16)") ∧
    (BindFailure.missingParameter "code" "integer(uint16)").message =
      "failed to parse parameter `code`: Type \"integer(uint16)\" expects an input value." :=
  ⟨rfl, rfl, rfl⟩

/-- C2: a query parameter `code` with a maximum-value validator of 100,
given `code=200`, fails validation with a 400 response whose body is
exactly `failed to parse parameter \x60code\x60: verification failed.
maximum(100, exclusive: false)`; in general a validation failure renders
the rule description verbatim in the format `verification failed. <rule>(<args>)`. -/
theorem c2_validator_message (handler : List Value → Nat → HttpResponse)
    (recovery : BindFailure → HttpResponse) (n : String) (desc : String)
    (m : Int) (ex : Bool) :
    dispatch opCodeMax handler none reqCode200 =
      { status := 400
        contentType := some "text/plain"
        headers := []
        body := "failed to parse parameter `code`: verification failed. maximum(100, exclusive: false)" } ∧
    dispatch opCodeMax handler (some recovery) reqCode200 =
      recovery (.validationError "code" "maximum(100, exclusive: false)") ∧
    (BindFailure.validationError n desc).message =
      "failed to parse parameter `" ++ n ++ "`: verification failed. " ++ desc ∧
    (Validator.maximum m ex).ruleText =
      "maximum(" ++ toString m ++ ", exclusive: " ++ boolWord ex ++ ")" :=
  ⟨rfl, rfl, rfl, rfl⟩

/-- C3: a request body whose media type is absent from the declared ordered
content alternatives fails binding with `UnsupportedMediaType`, mapped to
transport status 415 and never silently substituted; a media type matching
a declared alternative selects (the first occurrence of) that alternative's
variant and binding succeeds. -/
theorem c3_unsupported_media_type (alts : List String) (ct : String) :
    (mediaType ct ∉ alts →
      bindBody alts (some ct) = .error .unsupportedMediaType) ∧
    (mediaType ct ∈ alts →
      ∃ i, ∃ h : i < alts.length,
        bindBody alts (some ct) = .ok i ∧ alts.get ⟨i, h⟩ = mediaType ct) ∧
    (∀ handler, dispatch opPayload handler none reqText100 =
      plainTextFailure .unsupportedMediaType) ∧
    BindFailure.status .unsupportedMediaType = 415 := by
  refine ⟨?_, ?_, fun handler => rfl, rfl⟩
  · intro hnot
    have hnone : alts.findIdx? (fun a => a == mediaType ct) = none := by
      rw [List.findIdx?_eq_none_iff]
      intro x hx
      simp only [beq_eq_false_iff_ne, ne_eq]
      intro heq
      exact hnot (heq ▸ hx)
    simp [bindBody, hnone]
  · intro hmem
    have hex : ∃ x, x ∈ alts ∧ (x == mediaType ct) = true :=
      ⟨mediaType ct, hmem, by simp⟩
    have hfind := List.findIdx?_eq_some_of_exists hex
    have hchar := hfind
    rw [List.findIdx?_eq_some_iff_getElem] at hchar
    obtain ⟨hlt, hp, -⟩ := hchar
    refine ⟨alts.findIdx (fun a => a == mediaType ct), hlt, ?_, ?_⟩
    · simp [bindBody, hfind]
    · rw [List.get_eq_getElem]
      exact eq_of_beq hp

/-- C4: a sequence-shaped parameter collects all same-named entries of its
location in appearance order: whenever the extracted raw values are
non-empty and element-wise coercion succeeds, the bound value is exactly
the coerced sequence (validators empty, as in the tests). -/
theorem c4_multi_value_sequence (req : RawRequest) (p : ParamDescriptor) (t : PrimType)
    (vs : List Value) (hshape : p.shape = .seq t) (hval : p.validators = [])
    (hne : rawValues req p ≠ [])
    (hparse : (rawValues req p).mapM (parsePrim t) = some vs) :
    bindParam req p = .ok (.listV vs) := by
  obtain ⟨name, loc, shape, dflt, vals, dep, desc⟩ := p
  simp only at hshape hval
  subst hshape
  subst hval
  unfold bindParam
  rcases hraw : rawValues req ⟨name, loc, .seq t, dflt, [], dep, desc⟩ with - | ⟨s, rest⟩
  · exact absurd hraw hne
  · rw [hraw] at hparse
    simp only [bindRaw]
    rw [hparse]
    rfl

/-- C5: a response case whose first field is a runtime status-code value
emits that runtime value as the response status and records its status as
absent (`none`) in the document; a case with a declared fixed status emits
the declared status and records it. -/
theorem c5_runtime_status (v : RespValue) :
    (v.caseDecl.caseStatus = .runtime →
      (intoResponse v).status = v.runtimeStatus ∧
      (metaOfCase v.caseDecl).status = none) ∧
    (∀ n, v.caseDecl.caseStatus = .fixed n →
      (intoResponse v).status = n ∧
      (metaOfCase v.caseDecl).status = some n) := by
  constructor
  · intro h
    exact ⟨by simp [intoResponse, h], by simp [metaOfCase, h]⟩
  · intro n h
    exact ⟨by simp [intoResponse, h], by simp [metaOfCase, h]⟩

/-- C6: a parameter with a declared default producer binds to the default
when absent from the request; its document entry is non-required and
carries the default in its schema, at every position of the declaration
order; a parameter without a default stays required. -/
theorem c6_default_producer (p : ParamDescriptor) (req : RawRequest) (d : Value) :
    (p.default = some d → rawValues req p = [] → bindParam req p = .ok d) ∧
    (p.default = some d →
      (metaParam p).required = false ∧ (metaParam p).schemaDefault = some d) ∧
    (p.default = none → (metaParam p).required = true) ∧
    (∀ (ps : List ParamDescriptor) (i : Nat),
      (metaParams ps)[i]? = ps[i]?.map metaParam) := by
  refine ⟨?_, ?_, ?_, ?_⟩
  · intro hd hraw
    unfold bindParam
    rw [hraw]
    unfold bindRaw
    rw [hd]
  · intro hd
    exact ⟨by simp [metaParam, hd], by simp [metaParam, hd]⟩
  · intro hd
    simp [metaParam, hd]
  · intro ps i
    unfold metaParams
    exact List.getElem?_map metaParam ps i

/-- C7: a parameter declared with an override name uses the identical
override string as both the extraction name and the documented name, and
(when the override differs from the in-code identifier) both differ from
the identifier; this holds for every parameter location. -/
theorem c7_rename (d : ParamDecl) (s : String) (hs : d.rename = some s) :
    (mkDescriptor d).name = s ∧
    (metaParam (mkDescriptor d)).name = s ∧
    (∀ req, rawValues req (mkDescriptor d) = rawValuesAt req d.location s) ∧
    (s ≠ d.ident →
      (mkDescriptor d).name ≠ d.ident ∧ (metaParam (mkDescriptor d)).name ≠ d.ident) := by
  have hname : (mkDescriptor d).name = s := by
    simp [mkDescriptor, finalName, hs]
  refine ⟨hname, hname, ?_, ?_⟩
  · intro req
    unfold rawValues
    rw [show (mkDescriptor d).location = d.location from rfl, hname]
  · intro hne
    constructor
    · rw [hname]; exact hne
    · show (mkDescriptor d).name ≠ d.ident
      rw [hname]; exact hne

/-- C8: a response case's documented header list is the inline per-field
header declarations first, followed by the extra header declarations in
declared order, one entry per declaration with no deduplication, so its
length is the total number of declarations. -/
theorem c8_header_concatenation (c : RespCaseDecl) :
    (metaOfCase c).headers =
      c.fieldHeaders.map metaFieldHeader ++ c.extraHeaders.map metaExtraHeader ∧
    (metaOfCase c).headers.length = c.fieldHeaders.length + c.extraHeaders.length ∧
    (∀ i, i < c.fieldHeaders.length →
      (metaOfCase c).headers[i]? = c.fieldHeaders[i]?.map metaFieldHeader) ∧
    (∀ j, (metaOfCase c).headers[c.fieldHeaders.length + j]? =
      c.extraHeaders[j]?.map metaExtraHeader) := by
  refine ⟨rfl, by simp [metaOfCase], ?_, ?_⟩
  · intro i hi
    show (c.fieldHeaders.map metaFieldHeader ++ c.extraHeaders.map metaExtraHeader)[i]? = _
    rw [List.getElem?_append_left (by simpa using hi)]
    exact List.getElem?_map metaFieldHeader c.fieldHeaders i
  · intro j
    show (c.fieldHeaders.map metaFieldHeader ++
      c.extraHeaders.map metaExtraHeader)[c.fieldHeaders.length + j]? = _
    rw [List.getElem?_append_right (by simp)]
    rw [List.getElem?_map]
    congr 1
    simp

/-- C9: a declared header name is documented with its first character
upper-cased (`a2` becomes `A2`; `MY-HEADER1` keeps its declared case), and
this normalization never changes which header names match at runtime, where
matching is case-insensitive. -/
theorem c9_header_name_normalization (s t : String) (f : FieldHeaderDecl)
    (e : ExtraHeaderDecl) :
    (metaFieldHeader f).name = normalizeHeaderName f.name ∧
    (metaExtraHeader e).name = normalizeHeaderName e.name ∧
    headersMatch (normalizeHeaderName s) t = headersMatch s t ∧
    normalizeHeaderName "a2" = "A2" ∧
    normalizeHeaderName "MY-HEADER1" = "MY-HEADER1" :=
  ⟨rfl, rfl, headersMatch_normalize s t, by decide, by decide⟩

/-- C10: an optional response header field is emitted exactly when its value
is present — the header is absent from the emitted response when the field
is `none` and carries the value when it is `some` — and its document entry
is marked required exactly when the field is non-optional. -/
theorem c10_optional_header_emission (pairs : List (FieldHeaderDecl × Option String))
    (f : FieldHeaderDecl) (v : Option String)
    (hnodup : (pairs.map (fun fv => matchKey fv.1.name)).Nodup)
    (hmem : (f, v) ∈ pairs) :
    findHeader (emitHeaders pairs) f.name = v ∧
    (metaFieldHeader f).required = !f.optional := by
  refine ⟨?_, rfl⟩
  induction pairs with
  | nil => cases hmem
  | cons gv rest ih =>
    obtain ⟨g, w⟩ := gv
    rw [List.map_cons, List.nodup_cons] at hnodup
    obtain ⟨hg, hrest⟩ := hnodup
    rcases List.mem_cons.mp hmem with heq | hmem2
    · injection heq with h1 h2
      subst h1
      subst h2
      cases v with
      | none =>
        simpa [emitHeaders, List.filterMap_cons] using
          findHeader_emit_of_not_mem rest f.name hg
      | some s =>
        simp [emitHeaders, List.filterMap_cons, findHeader, List.find?_cons, headersMatch]
    · have hin : matchKey f.name ∈ rest.map (fun fv => matchKey fv.1.name) := by
        have := List.mem_map_of_mem (fun fv => matchKey fv.1.name) hmem2
        simpa using this
      have hne : headersMatch g.name f.name = false := by
        unfold headersMatch
        simp only [beq_eq_false_iff_ne, ne_eq]
        intro hcontra
        exact hg (hcontra ▸ hin)
      cases w with
      | none =>
        simpa [emitHeaders, List.filterMap_cons] using ih hrest hmem2
      | some s =>
        have hrec := ih hrest hmem2
        simp only [emitHeaders, List.filterMap_cons, Option.map_some] at *
        simpa [findHeader, List.find?_cons, hne] using hrec

/-! ### Witnesses -/

theorem c1_missing_code_recovery_witness :
    dispatch opCode handlerOk none reqNoCode =
      { status := 400
        contentType := some "text/plain"
        headers := []
        body := "failed to parse parameter `code`: Type \"integer(uint16)\" expects an input value." } ∧
    dispatch opCode handlerOk (some plainTextFailure) reqNoCode =
      plainTextFailure (.missingParameter "code" "integer(uint16)") ∧
    (BindFailure.missingParameter "code" "integer(uint16)").message =
      "failed to parse parameter `code`: Type \"integer(uint16)\" expects an input value." :=
  c1_missing_code_recovery handlerOk plainTextFailure

theorem c2_validator_message_witness :
    dispatch opCodeMax handlerOk none reqCode200 =
      { status := 400
        contentType := some "text/plain"
        headers := []
        body := "failed to parse parameter `code`: verification failed. maximum(100, exclusive: false)" } ∧
    dispatch opCodeMax handlerOk (some plainTextFailure) reqCode200 =
      plainTextFailure (.validationError "code" "maximum(100, exclusive: false)") ∧
    (BindFailure.validationError "code" "maximum(100, exclusive: false)").message =
      "failed to parse parameter `code`: verification failed. " ++
        "maximum(100, exclusive: false)" ∧
    (Validator.maximum 100 false).ruleText =
      "maximum(" ++ toString (100 : Int) ++ ", exclusive: " ++ boolWord false ++ ")" :=
  c2_validator_message handlerOk plainTextFailure "code" "maximum(100, exclusive: false)" 100 false

theorem c3_unsupported_media_type_witness :
    bindBody ["application/json"] (some "text/plain") = .error .unsupportedMediaType ∧
    (∃ i, ∃ h : i < ["application/json"].length,
      bindBody ["application/json"] (some "application/json; charset=utf-8") = .ok i ∧
      ["application/json"].get ⟨i, h⟩ = mediaType "application/json; charset=utf-8") :=
  ⟨(c3_unsupported_media_type ["application/json"] "text/plain").1 (by decide),
   (c3_unsupported_media_type ["application/json"] "application/json; charset=utf-8").2.1
     (by decide)⟩

theorem c4_multi_value_sequence_witness :
    bindParam (queryRequest [("v", "10"), ("v", "20"), ("v", "30")]) vSeqParam =
      .ok (.listV [.intV 10, .intV 20, .intV 30]) :=
  c4_multi_value_sequence (queryRequest [("v", "10"), ("v", "20"), ("v", "30")]) vSeqParam
    .int32 [.intV 10, .intV 20, .intV 30] rfl rfl (by decide) rfl

theorem c5_runtime_status_witness :
    ((intoResponse defaultRespVal).status = defaultRespVal.runtimeStatus ∧
      (metaOfCase defaultRespVal.caseDecl).status = none) ∧
    ((intoResponse extraRespVal).status = 200 ∧
      (metaOfCase extraRespVal.caseDecl).status = some 200) :=
  ⟨(c5_runtime_status defaultRespVal).1 rfl,
   (c5_runtime_status extraRespVal).2 200 rfl⟩

theorem c6_default_producer_witness :
    bindParam reqNoCode defaultParam999 = .ok (.intV 999) ∧
    ((metaParam defaultParam999).required = false ∧
      (metaParam defaultParam999).schemaDefault = some (.intV 999)) ∧
    (metaParam codeParam).required = true :=
  ⟨(c6_default_producer defaultParam999 reqNoCode (.intV 999)).1 rfl rfl,
   (c6_default_producer defaultParam999 reqNoCode (.intV 999)).2.1 rfl,
   (c6_default_producer codeParam reqNoCode (.intV 999)).2.2.1 rfl⟩

theorem c7_rename_witness :
    (mkDescriptor fooBarDecl).name = "fooBar" ∧
    (metaParam (mkDescriptor fooBarDecl)).name = "fooBar" ∧
    (mkDescriptor fooBarDecl).name ≠ "foo_bar" :=
  ⟨(c7_rename fooBarDecl "fooBar" rfl).1,
   (c7_rename fooBarDecl "fooBar" rfl).2.1,
   ((c7_rename fooBarDecl "fooBar" rfl).2.2.2 (by decide)).1⟩

theorem c8_header_concatenation_witness :
    (metaOfCase extraCase).headers.length =
      extraCase.fieldHeaders.length + extraCase.extraHeaders.length ∧
    (metaOfCase extraCase).headers[0]? = extraCase.fieldHeaders[0]?.map metaFieldHeader ∧
    (metaOfCase extraCase).headers[extraCase.fieldHeaders.length + 1]? =
      extraCase.extraHeaders[1]?.map metaExtraHeader :=
  ⟨(c8_header_concatenation extraCase).2.1,
   (c8_header_concatenation extraCase).2.2.1 0 (by decide),
   (c8_header_concatenation extraCase).2.2.2 1⟩

theorem c9_header_name_normalization_witness :
    headersMatch (normalizeHeaderName "a2") "A2" = headersMatch "a2" "A2" ∧
    normalizeHeaderName "a2" = "A2" ∧
    normalizeHeaderName "MY-HEADER1" = "MY-HEADER1" :=
  ⟨(c9_header_name_normalization "a2" "A2" h1Decl ⟨"a2", true, some "abc"⟩).2.2.1,
   (c9_header_name_normalization "a2" "A2" h1Decl ⟨"a2", true, some "abc"⟩).2.2.2.1,
   (c9_header_name_normalization "a2" "A2" h1Decl ⟨"a2", true, some "abc"⟩).2.2.2.2⟩

theorem c10_optional_header_emission_witness :
    findHeader (emitHeaders pairsBNone) h2Decl.name = none ∧
    findHeader (emitHeaders pairsBSome) h2Decl.name = some "abc" ∧
    (metaFieldHeader h2Decl).required = !h2Decl.optional :=
  ⟨(c10_optional_header_emission pairsBNone h2Decl none (by decide) (by decide)).1,
   (c10_optional_header_emission pairsBSome h2Decl (some "abc") (by decide) (by decide)).1,
   (c10_optional_header_emission pairsBNone h2Decl none (by decide) (by decide)).2⟩

end Poem
